import Mathlib

/-!
Shallow embedding of `wifi_router_shared/router.py`, the shared router-state
engine of the XiaoYi WiFi-router simulation.

Modelling conventions:
* Python's mutable global `router_state` becomes explicit state passing:
  every tool executor takes a `RouterState` and returns the updated one.
* Fallible entry points (`read_resource_data`, `call_tool_data`, which
  `raise ValueError` on unknown names) return `Except String _`;
  `Except.error` models the raised exception, in which case no successor
  state exists, i.e. the state is unchanged.
* `datetime.now()` is modelled by a `Clock` argument carrying the
  `strftime('%Y-%m-%d %H:%M:%S')` rendering (`fmt`) and the `isoformat()`
  rendering (`iso`); Python makes several `now()` calls per request whose
  renderings may in principle differ, the model uses one per request.
* `random.uniform` / `random.randint` are modelled by a `RandOracle`
  argument holding the four values drawn by `run_speed_test`; the
  contracts of the Python functions are the `RandOracle.Valid` predicate.
* Python floats are idealised as exact rationals `ℚ`; `round(x, 2)`
  (banker's rounding to two decimals) is `round2` below.
* Argument dictionaries are modelled by the `ToolArgs` record: one
  `Option` field per key the code reads, with types as declared in the
  tools' `inputSchema`; a missing key is `none`.  Keys the code never
  reads cannot influence behaviour and are omitted.
-/

/-- A connected device record (`RouterState.__init__`, `connected_devices`). -/
structure Device where
  name : String
  mac : String
  ip : String
  connected_time : String
  signal_strength : Int
  deriving Repr, DecidableEq

/-- An available-network record (`RouterState.__init__`, `available_networks`). -/
structure Network where
  ssid : String
  signal_strength : Int
  security : String
  frequency : String
  channel : Int
  deriving Repr, DecidableEq

/-- The `network_stats` dictionary. -/
structure NetworkStats where
  download_speed_mbps : ℚ
  upload_speed_mbps : ℚ
  latency_ms : Int
  packet_loss_percent : ℚ
  connected_devices : Nat
  deriving Repr, DecidableEq

/-- The mutable router state (`class RouterState`). -/
structure RouterState where
  ssid : String
  password : String
  is_on : Bool
  frequency_band : String
  channel : Int
  max_devices : Nat
  security_mode : String
  guest_network_enabled : Bool
  guest_ssid : String
  guest_password : String
  firmware_version : String
  uptime_seconds : Nat
  connected_devices : List Device
  available_networks : List Network
  network_stats : NetworkStats
  logs : List String
  deriving Repr, DecidableEq

/-- The initial state built by `RouterState.__init__`.  The five start-up
log lines each interpolate `datetime.now()`; the parameter `now` stands
for its formatted value. -/
def initState (now : String) : RouterState :=
  let devices : List Device :=
    [ { name := "iPhone 14", mac := "AA:BB:CC:DD:EE:01", ip := "192.168.1.101",
        connected_time := "2 hours", signal_strength := -45 },
      { name := "MacBook Pro", mac := "AA:BB:CC:DD:EE:02", ip := "192.168.1.102",
        connected_time := "5 hours", signal_strength := -38 },
      { name := "Smart TV", mac := "AA:BB:CC:DD:EE:03", ip := "192.168.1.103",
        connected_time := "5 days", signal_strength := -55 } ]
  { ssid := "XiaoYi_Home_WiFi"
    password := "secure_password_123"
    is_on := true
    frequency_band := "2.4GHz"
    channel := 6
    max_devices := 32
    security_mode := "WPA3"
    guest_network_enabled := false
    guest_ssid := "XiaoYi_Guest"
    guest_password := "guest123"
    firmware_version := "v2.1.4"
    uptime_seconds := 432000
    connected_devices := devices
    available_networks :=
      [ { ssid := "XiaoYi_Home_WiFi", signal_strength := -30, security := "WPA3",
          frequency := "2.4GHz", channel := 6 },
        { ssid := "Neighbor_WiFi", signal_strength := -65, security := "WPA2",
          frequency := "2.4GHz", channel := 11 },
        { ssid := "CoffeeShop_Free", signal_strength := -70, security := "Open",
          frequency := "2.4GHz", channel := 1 },
        { ssid := "Office_Network", signal_strength := -80, security := "WPA2",
          frequency := "5GHz", channel := 36 } ]
    network_stats :=
      { download_speed_mbps := 95.5
        upload_speed_mbps := 48.2
        latency_ms := 12
        packet_loss_percent := 0.1
        connected_devices := devices.length }
    logs :=
      [ "[" ++ now ++ "] Router system started",
        "[" ++ now ++ "] Firmware updated to v2.1.4",
        "[" ++ now ++ "] Guest network disabled",
        "[" ++ now ++ "] Channel set to 6",
        "[" ++ now ++ "] Security mode set to WPA3" ] }

/-- The masked view of the configuration returned for `router://config`. -/
structure ConfigView where
  ssid : String
  password : String
  is_on : Bool
  frequency_band : String
  channel : Int
  security_mode : String
  guest_network_enabled : Bool
  guest_ssid : Option String
  guest_password : Option String
  firmware_version : String
  uptime_seconds : Nat
  uptime_readable : String
  deriving Repr, DecidableEq

/-- The human-readable uptime string used in `read_resource_data` and
`get_router_status`: `f"{u // 86400} days, {(u % 86400) // 3600} hours"`. -/
def uptimeReadable (u : Nat) : String :=
  toString (u / 86400) ++ " days, " ++ toString ((u % 86400) / 3600) ++ " hours"

/-- The JSON-shaped value a resource read returns. -/
inductive ResourceVal where
  | devices (connected_devices : List Device) (total_devices : Nat) (max_devices : Nat)
  | stats (s : NetworkStats)
  | config (c : ConfigView)
  | logsText (t : String)
  | networks (available_networks : List Network) (total_networks : Nat)
  deriving Repr, DecidableEq

/-- `read_resource_data(uri)`: a pure projection of the state.  The Python
function raises `ValueError` on an unknown URI, modelled by `Except.error`. -/
def read_resource_data (uri : String) (s : RouterState) : Except String ResourceVal :=
  if uri = "router://devices" then
    .ok (.devices s.connected_devices s.connected_devices.length s.max_devices)
  else if uri = "router://stats" then
    .ok (.stats s.network_stats)
  else if uri = "router://config" then
    .ok (.config
      { ssid := s.ssid
        password := "********"
        is_on := s.is_on
        frequency_band := s.frequency_band
        channel := s.channel
        security_mode := s.security_mode
        guest_network_enabled := s.guest_network_enabled
        guest_ssid := if s.guest_network_enabled then some s.guest_ssid else none
        guest_password := if s.guest_network_enabled then some "********" else none
        firmware_version := s.firmware_version
        uptime_seconds := s.uptime_seconds
        uptime_readable := uptimeReadable s.uptime_seconds })
  else if uri = "router://logs" then
    .ok (.logsText (String.intercalate "\n" s.logs))
  else if uri = "router://networks" then
    .ok (.networks s.available_networks s.available_networks.length)
  else
    .error ("Unknown resource URI: " ++ uri)

/-- The five resource URIs `read_resource_data` recognises. -/
def knownResourceUris : List String :=
  ["router://devices", "router://stats", "router://config", "router://logs",
   "router://networks"]

/-- Whether `needle` starts `hay` (character lists). -/
def listStarts : List Char → List Char → Bool
  | [], _ => true
  | _ :: _, [] => false
  | a :: as, b :: bs => a == b && listStarts as bs

/-- Whether `needle` occurs contiguously in `hay` (character lists). -/
def listSub (needle : List Char) : List Char → Bool
  | [] => needle.isEmpty
  | b :: bs => listStarts needle (b :: bs) || listSub needle bs

/-- Python's substring test `needle in hay` for strings. -/
def strIn (needle hay : String) : Bool :=
  listSub needle.data hay.data

/-- A single-quote character as a string (kept out of other literals). -/
def sqt : String := "\x27"

/-- Round-half-to-even to an integer, as Python's builtin `round` does
(idealised over `ℚ`). -/
def rhalfeven (q : ℚ) : ℤ :=
  if q - ⌊q⌋ = (1 : ℚ) / 2 then (if Even ⌊q⌋ then ⌊q⌋ else ⌊q⌋ + 1)
  else round q

/-- Python's `round(x, 2)` over the rational idealisation of floats. -/
def round2 (q : ℚ) : ℚ :=
  (rhalfeven (q * 100) : ℚ) / 100

/-- The formatted values of `datetime.now()` during one request:
`fmt` is the `strftime('%Y-%m-%d %H:%M:%S')` form used in log lines,
`iso` the `isoformat()` form used in result payloads. -/
structure Clock where
  fmt : String
  iso : String
  deriving Repr, DecidableEq

/-- The values drawn from `random` by the `run_speed_test` branch:
`dl = random.uniform(-5, 5)`, `ul = random.uniform(-3, 3)`,
`lat = random.randint(-2, 2)`, `jit = random.randint(1, 5)`. -/
structure RandOracle where
  dl : ℚ
  ul : ℚ
  lat : Int
  jit : Int
  deriving Repr, DecidableEq

/-- The ranges the Python `random` functions guarantee for the values
drawn by `run_speed_test`. -/
def RandOracle.Valid (r : RandOracle) : Prop :=
  -5 ≤ r.dl ∧ r.dl ≤ 5 ∧ -3 ≤ r.ul ∧ r.ul ≤ 3 ∧
  -2 ≤ r.lat ∧ r.lat ≤ 2 ∧ 1 ≤ r.jit ∧ r.jit ≤ 5

instance : DecidablePred RandOracle.Valid := by
  unfold RandOracle.Valid; infer_instance

/-- An argument dictionary as read by `call_tool_data`: one optional field
per key the code looks up, typed as the `inputSchema` declares; `none`
models an absent key. -/
structure ToolArgs where
  confirm : Option Bool := none
  new_password : Option String := none
  new_ssid : Option String := none
  enabled : Option Bool := none
  guest_ssid : Option String := none
  guest_password : Option String := none
  mac_address : Option String := none
  channel : Option Int := none
  band : Option String := none
  deriving Repr, DecidableEq

/-- The result dictionary of a tool call.  Each Python result is a dict
with a subset of these keys; an absent key is `none`.  (The `device`
key of `disconnect_device` echoes the removed record; numeric values in
log lines are rendered with `toString`, standing for Python's `str`.) -/
structure ToolResult where
  status : String
  message : Option String := none
  networks_found : Option Nat := none
  networks : Option (List Network) := none
  timestamp : Option String := none
  ssid : Option String := none
  is_on : Option Bool := none
  frequency_band : Option String := none
  channel : Option Int := none
  security_mode : Option String := none
  connected_devices : Option Nat := none
  firmware_version : Option String := none
  uptime : Option String := none
  guest_network : Option String := none
  new_password_length : Option Nat := none
  new_ssid : Option String := none
  guest_ssid : Option String := none
  guest_password_set : Option Bool := none
  note : Option String := none
  device : Option Device := none
  new_channel : Option Int := none
  new_band : Option String := none
  current_version : Option String := none
  latest_version : Option String := none
  update_available : Option Bool := none
  checked_at : Option String := none
  download_mbps : Option ℚ := none
  upload_mbps : Option ℚ := none
  latency_ms : Option Int := none
  jitter_ms : Option Int := none
  tested_at : Option String := none
  deriving Repr, DecidableEq

/-- A log line `f"[{now}] {msg}"` as prepended by the tool handlers. -/
def logLine (clk : Clock) (msg : String) : String :=
  "[" ++ clk.fmt ++ "] " ++ msg

/-- Python's `list.remove(x)`: drop the first element equal to `x`. -/
def removeFirstEq : List Device → Device → List Device
  | [], _ => []
  | a :: t, d => if a = d then t else a :: removeFirstEq t d

/-- The eleven tool names `call_tool_data` dispatches on. -/
def knownToolNames : List String :=
  ["scan_networks", "get_router_status", "reboot_router", "change_wifi_password",
   "change_ssid", "enable_guest_network", "disconnect_device", "change_channel",
   "set_frequency_band", "check_firmware_update", "run_speed_test"]

/-- `call_tool_data(name, arguments)`: executes a tool against the state and
returns the result payload together with the successor state.  The Python
function mutates the global `router_state`; here the state is threaded
explicitly.  An unknown name raises `ValueError`, modelled by `Except.error`
(no successor state: the state is unchanged). -/
def call_tool_data (name : String) (args : ToolArgs) (clk : Clock)
    (rnd : RandOracle) (s : RouterState) :
    Except String (ToolResult × RouterState) :=
  if name = "scan_networks" then
    .ok ({ status := "success"
           networks_found := some s.available_networks.length
           networks := some s.available_networks
           timestamp := some clk.iso }, s)
  else if name = "get_router_status" then
    .ok ({ status := "online"
           ssid := some s.ssid
           is_on := some s.is_on
           frequency_band := some s.frequency_band
           channel := some s.channel
           security_mode := some s.security_mode
           connected_devices := some s.connected_devices.length
           firmware_version := some s.firmware_version
           uptime := some (uptimeReadable s.uptime_seconds)
           guest_network := some (if s.guest_network_enabled then "enabled" else "disabled") }, s)
  else if name = "reboot_router" then
    if args.confirm = some true then
      .ok ({ status := "success"
             message := some "Router is rebooting. This will take approximately 2 minutes."
             timestamp := some clk.iso },
           { s with uptime_seconds := 0
                    logs := logLine clk "Router rebooted" :: s.logs })
    else
      .ok ({ status := "cancelled"
             message := some "Reboot cancelled. Set confirm=true to proceed." }, s)
  else if name = "change_wifi_password" then
    let new_password := args.new_password.getD ""
    if new_password.length < 8 then
      .ok ({ status := "error"
             message := some "Password must be at least 8 characters long" }, s)
    else
      .ok ({ status := "success"
             message := some "WiFi password updated successfully. All devices will need to reconnect."
             new_password_length := some new_password.length },
           { s with password := new_password
                    logs := logLine clk "WiFi password changed" :: s.logs })
  else if name = "change_ssid" then
    let new_ssid := args.new_ssid.getD ""
    if new_ssid = "" then
      .ok ({ status := "error", message := some "SSID cannot be empty" }, s)
    else
      let old_ssid := s.ssid
      .ok ({ status := "success"
             message := some ("SSID changed from " ++ sqt ++ old_ssid ++ sqt ++ " to "
               ++ sqt ++ new_ssid ++ sqt ++ ". All devices will need to reconnect.")
             new_ssid := some new_ssid },
           { s with ssid := new_ssid
                    logs := logLine clk ("SSID changed from " ++ sqt ++ old_ssid ++ sqt
                      ++ " to " ++ sqt ++ new_ssid ++ sqt) :: s.logs })
  else if name = "enable_guest_network" then
    let enabled := args.enabled.getD false
    let s := { s with guest_network_enabled := enabled }
    if enabled then
      let s := if args.guest_ssid.getD "" ≠ ""
               then { s with guest_ssid := args.guest_ssid.getD "" } else s
      let s := if args.guest_password.getD "" ≠ ""
               then { s with guest_password := args.guest_password.getD "" } else s
      .ok ({ status := "success"
             message := some "Guest network enabled"
             guest_ssid := some s.guest_ssid
             guest_password_set := some true
             note := some ("Password has been set but is not displayed for security. "
               ++ "Check router configuration to view masked password.") },
           { s with logs := logLine clk ("Guest network enabled: " ++ s.guest_ssid) :: s.logs })
    else
      .ok ({ status := "success", message := some "Guest network disabled" },
           { s with logs := logLine clk "Guest network disabled" :: s.logs })
  else if name = "disconnect_device" then
    let mac_address := args.mac_address.getD ""
    match s.connected_devices.find? (fun d => d.mac = mac_address) with
    | some device =>
      .ok ({ status := "success"
             message := some ("Device " ++ sqt ++ device.name ++ sqt
               ++ " disconnected successfully")
             device := some device },
           { s with connected_devices := removeFirstEq s.connected_devices device
                    logs := logLine clk ("Device disconnected: " ++ device.name
                      ++ " (" ++ mac_address ++ ")") :: s.logs })
    | none =>
      .ok ({ status := "error"
             message := some ("Device with MAC address " ++ mac_address ++ " not found") }, s)
  else if name = "change_channel" then
    match args.channel with
    | some c =>
      if c ≠ 0 then
        let old_channel := s.channel
        .ok ({ status := "success"
               message := some ("Channel changed from " ++ toString old_channel
                 ++ " to " ++ toString c)
               new_channel := some c },
             { s with channel := c
                      logs := logLine clk ("Channel changed from " ++ toString old_channel
                        ++ " to " ++ toString c) :: s.logs })
      else
        .ok ({ status := "error", message := some "Channel number is required" }, s)
    | none =>
      .ok ({ status := "error", message := some "Channel number is required" }, s)
  else if name = "set_frequency_band" then
    match args.band with
    | some band =>
      if band = "2.4GHz" ∨ band = "5GHz" ∨ band = "dual" then
        let old_band := s.frequency_band
        .ok ({ status := "success"
               message := some ("Frequency band changed from " ++ old_band
                 ++ " to " ++ band)
               new_band := some band },
             { s with frequency_band := band
                      logs := logLine clk ("Frequency band changed from " ++ old_band
                        ++ " to " ++ band) :: s.logs })
      else
        .ok ({ status := "error"
               message := some "Invalid band. Must be \x272.4GHz\x27, \x275GHz\x27, or \x27dual\x27" }, s)
    | none =>
      .ok ({ status := "error"
             message := some "Invalid band. Must be \x272.4GHz\x27, \x275GHz\x27, or \x27dual\x27" }, s)
  else if name = "check_firmware_update" then
    .ok ({ status := "success"
           current_version := some s.firmware_version
           latest_version := some s.firmware_version
           update_available := some false
           message := some "Your router firmware is up to date"
           checked_at := some clk.iso },
         { s with logs := logLine clk "Firmware update check: Up to date" :: s.logs })
  else if name = "run_speed_test" then
    let download := round2 (s.network_stats.download_speed_mbps + rnd.dl)
    let upload := round2 (s.network_stats.upload_speed_mbps + rnd.ul)
    .ok ({ status := "success"
           download_mbps := some download
           upload_mbps := some upload
           latency_ms := some (s.network_stats.latency_ms + rnd.lat)
           jitter_ms := some rnd.jit
           tested_at := some clk.iso },
         { s with logs := logLine clk ("Speed test completed: " ++ toString download
           ++ " Mbps down, " ++ toString upload ++ " Mbps up") :: s.logs })
  else
    .error ("Unknown tool: " ++ name)

/-- The score/recommendation computation of the `security_audit` branch of
`get_prompt_data` (router.py lines 839-876), translated step by step:
the Python code starts from `security_score = 0`, `recommendations = []`
and runs four checks in order (security mode, password length, SSID,
guest network), each adding points and/or appending recommendations, then
always appends the firmware reminder.  Prompt builders are pure readers
of the state: the score is returned inside the rendered text only, never
stored back into `router_state`. -/
def securityAudit (s : RouterState) : Nat × List String :=
  let score : Nat := 0
  let recommendations : List String := []
  let p1 : Nat × List String :=
    if s.security_mode = "WPA3" then (score + 30, recommendations)
    else if s.security_mode = "WPA2" then
      (score + 20, recommendations ++ ["Consider upgrading to WPA3 for better security"])
    else
      (score + 5, recommendations ++ ["⚠️ CRITICAL: Upgrade to WPA3 immediately"])
  let p2 : Nat × List String :=
    if 16 ≤ s.password.length then (p1.1 + 25, p1.2)
    else if 12 ≤ s.password.length then (p1.1 + 20, p1.2)
    else if 8 ≤ s.password.length then
      (p1.1 + 10, p1.2 ++ ["Use a longer password (16+ characters recommended)"])
    else (p1.1, p1.2 ++ ["⚠️ CRITICAL: Password is too short"])
  let p3 : Nat × List String :=
    if strIn "default" s.ssid.toLower || strIn "admin" s.ssid.toLower then
      (p2.1, p2.2 ++ ["Change default SSID to something unique"])
    else (p2.1 + 15, p2.2)
  let p4 : Nat × List String :=
    if s.guest_network_enabled then
      if s.guest_password ≠ s.password then (p3.1 + 15 + 15, p3.2)
      else (p3.1 + 15, p3.2 ++ ["Use a different password for guest network"])
    else (p3.1, p3.2 ++ ["Consider enabling guest network for visitors"])
  (p4.1, p4.2 ++ ["Keep firmware updated - check regularly with `check_firmware_update()`"])

/-- The numbered recommendation block appended to the audit message:
`for i, rec in enumerate(recommendations, 1): message += f"{i}. {rec}\n"`. -/
def auditRecsBlock (recs : List String) : String :=
  String.join ((recs.enumFrom 1).map (fun p => toString p.1 ++ ". " ++ p.2 ++ "\n"))

/-- Modelled from the spec: the security-mode check contributes 30 for
WPA3, 20 for WPA2, 5 otherwise. -/
def specModePoints (s : RouterState) : Nat :=
  if s.security_mode = "WPA3" then 30 else if s.security_mode = "WPA2" then 20 else 5

/-- Modelled from the spec: the password-length check contributes
25 (≥16), 20 (≥12), 10 (≥8) or 0. -/
def specPwdPoints (s : RouterState) : Nat :=
  if 16 ≤ s.password.length then 25
  else if 12 ≤ s.password.length then 20
  else if 8 ≤ s.password.length then 10
  else 0

/-- Modelled from the spec: the SSID check contributes 15 exactly when the
lowercased SSID contains neither "default" nor "admin". -/
def specSsidPoints (s : RouterState) : Nat :=
  if strIn "default" s.ssid.toLower || strIn "admin" s.ssid.toLower then 0 else 15

/-- Modelled from the spec: the guest-network check contributes 15 when
enabled, plus another 15 when the guest password differs from the main one. -/
def specGuestPoints (s : RouterState) : Nat :=
  if s.guest_network_enabled then
    15 + (if s.guest_password ≠ s.password then 15 else 0)
  else 0

/-- Modelled from the spec: recommendations emitted by the security-mode check. -/
def specModeRecs (s : RouterState) : List String :=
  if s.security_mode = "WPA3" then []
  else if s.security_mode = "WPA2" then ["Consider upgrading to WPA3 for better security"]
  else ["⚠️ CRITICAL: Upgrade to WPA3 immediately"]

/-- Modelled from the spec: recommendations emitted by the password-length check. -/
def specPwdRecs (s : RouterState) : List String :=
  if 16 ≤ s.password.length then []
  else if 12 ≤ s.password.length then []
  else if 8 ≤ s.password.length then ["Use a longer password (16+ characters recommended)"]
  else ["⚠️ CRITICAL: Password is too short"]

/-- Modelled from the spec: recommendation emitted by the SSID check. -/
def specSsidRecs (s : RouterState) : List String :=
  if strIn "default" s.ssid.toLower || strIn "admin" s.ssid.toLower then
    ["Change default SSID to something unique"]
  else []

/-- Modelled from the spec: recommendations emitted by the guest-network check. -/
def specGuestRecs (s : RouterState) : List String :=
  if s.guest_network_enabled then
    if s.guest_password ≠ s.password then []
    else ["Use a different password for guest network"]
  else ["Consider enabling guest network for visitors"]

/-- The unconditional final recommendation. -/
def firmwareRec : String :=
  "Keep firmware updated - check regularly with `check_firmware_update()`"

/-- The speed-test result lies within the bounded jitter range of the
stored baselines: download within ±5, upload within ±3, latency within ±2. -/
def InJitterRange (res : ToolResult) (ns : NetworkStats) : Prop :=
  (∃ d, res.download_mbps = some d ∧
    ns.download_speed_mbps - 5 ≤ d ∧ d ≤ ns.download_speed_mbps + 5) ∧
  (∃ u, res.upload_mbps = some u ∧
    ns.upload_speed_mbps - 3 ≤ u ∧ u ≤ ns.upload_speed_mbps + 3) ∧
  (∃ l, res.latency_ms = some l ∧
    ns.latency_ms - 2 ≤ l ∧ l ≤ ns.latency_ms + 2)

/-- A fixed clock value used for concrete instantiations. -/
def clk0 : Clock := { fmt := "2025-01-01 00:00:00", iso := "2025-01-01T00:00:00" }

/-- A fixed random-oracle value used for concrete instantiations. -/
def rnd0 : RandOracle := { dl := 0, ul := 0, lat := 0, jit := 1 }

/-- `rhalfeven` lands between floor and ceiling. -/
lemma rhalfeven_mem (y : ℚ) : ⌊y⌋ ≤ rhalfeven y ∧ rhalfeven y ≤ ⌈y⌉ := by
  unfold rhalfeven
  split
  · rename_i h
    have hlt : (⌊y⌋ : ℚ) < y := by
      have hy : y - ⌊y⌋ = 1 / 2 := h
      linarith
    have hceil : ⌊y⌋ + 1 ≤ ⌈y⌉ := by
      have h2 : (⌊y⌋ : ℚ) < (⌈y⌉ : ℚ) := lt_of_lt_of_le hlt (Int.le_ceil y)
      have h3 : ⌊y⌋ < ⌈y⌉ := by exact_mod_cast h2
      omega
    split <;> omega
  · constructor
    · have := Int.floor_le_floor (α := ℚ) (show y ≤ y + 1 / 2 by linarith)
      rw [round_eq]
      omega
    · rw [round_eq]
      have h1 : (⌊y + 1 / 2⌋ : ℚ) ≤ y + 1 / 2 := Int.floor_le _
      have h2 : y ≤ (⌈y⌉ : ℚ) := Int.le_ceil y
      have h3 : (⌊y + 1 / 2⌋ : ℚ) < (⌈y⌉ : ℚ) + 1 := by linarith
      have h4 : ⌊y + 1 / 2⌋ < ⌈y⌉ + 1 := by exact_mod_cast h3
      omega

/-- Integer bounds on an argument carry over to `rhalfeven`. -/
lemma rhalfeven_bounds (y : ℚ) (a b : ℤ) (ha : (a : ℚ) ≤ y) (hb : y ≤ (b : ℚ)) :
    (a : ℚ) ≤ (rhalfeven y : ℚ) ∧ (rhalfeven y : ℚ) ≤ (b : ℚ) := by
  obtain ⟨h1, h2⟩ := rhalfeven_mem y
  have hfa : a ≤ ⌊y⌋ := Int.le_floor.mpr ha
  have hcb : ⌈y⌉ ≤ b := Int.ceil_le.mpr hb
  constructor
  · exact_mod_cast le_trans hfa h1
  · exact_mod_cast le_trans h2 hcb

/-- Rounding to two decimals stays inside any enclosing interval whose
endpoints are exact two-decimal numbers. -/
lemma round2_bounds (x lo hi : ℚ) (m n : ℤ)
    (hm : lo * 100 = (m : ℚ)) (hn : hi * 100 = (n : ℚ))
    (h1 : lo ≤ x) (h2 : x ≤ hi) :
    lo ≤ round2 x ∧ round2 x ≤ hi := by
  have hx1 : (m : ℚ) ≤ x * 100 := by rw [← hm]; nlinarith
  have hx2 : x * 100 ≤ (n : ℚ) := by rw [← hn]; nlinarith
  obtain ⟨hb1, hb2⟩ := rhalfeven_bounds (x * 100) m n hx1 hx2
  unfold round2
  constructor
  · linarith
  · linarith

/-- Every character list starts with itself. -/
lemma listStarts_self (l : List Char) : listStarts l l = true := by
  induction l with
  | nil => rfl
  | cons a t ih => simp [listStarts, ih]

/-- A suffix is a contiguous occurrence. -/
lemma listSub_append_self (pre n : List Char) : listSub n (pre ++ n) = true := by
  induction pre with
  | nil =>
    cases n with
    | nil => rfl
    | cons b bs => simp [listSub, listStarts_self]
  | cons a t ih =>
    simp [listSub, ih]

/-- A string occurs in any string it ends. -/
lemma strIn_append (pre n : String) : strIn n (pre ++ n) = true := by
  unfold strIn
  rw [String.data_append]
  exact listSub_append_self pre.data n.data

/-- Each log line mentions its message. -/
lemma strIn_logLine (clk : Clock) (msg : String) : strIn msg (logLine clk msg) = true := by
  unfold logLine
  exact strIn_append ("[" ++ clk.fmt ++ "] ") msg

/-- Python's `list.remove` shortens a list containing the element by one. -/
lemma removeFirstEq_length (l : List Device) (d : Device) (h : d ∈ l) :
    (removeFirstEq l d).length + 1 = l.length := by
  induction l with
  | nil => cases h
  | cons a t ih =>
    by_cases hd : a = d
    · simp [removeFirstEq, hd]
    · have ht : d ∈ t := by
        rcases List.mem_cons.mp h with h1 | h1
        · exact absurd h1.symm hd
        · exact h1
      simp [removeFirstEq, hd, ih ht]

lemma filter_eq_self_of_not_mac (t : List Device) (mac : String)
    (h : ∀ x ∈ t, x.mac ≠ mac) :
    t.filter (fun x => x.mac ≠ mac) = t := by
  rw [List.filter_eq_self]
  intro x hx
  simpa using h x hx

lemma removeFirstEq_of_find? (l : List Device) (mac : String)
    (hnd : (l.map Device.mac).Nodup) (d : Device)
    (hf : l.find? (fun x => x.mac = mac) = some d) :
    removeFirstEq l d = l.filter (fun x => x.mac ≠ mac) := by
  induction l with
  | nil => simp at hf
  | cons a t ih =>
    have hdmac : d.mac = mac := by
      have := List.find?_some hf
      simpa using this
    by_cases ha : a.mac = mac
    · have had : d = a := by
        rw [List.find?_cons_of_pos] at hf
        · exact (Option.some_injective _ hf).symm
        · simpa using ha
      subst had
      have hnm : ∀ x ∈ t, x.mac ≠ mac := by
        intro x hx hxe
        simp only [List.map_cons, List.nodup_cons] at hnd
        apply hnd.1
        rw [hdmac, ← hxe]
        exact List.mem_map_of_mem Device.mac hx
      have h1 : removeFirstEq (d :: t) d = t := by simp [removeFirstEq]
      have h2 : (d :: t).filter (fun x => x.mac ≠ mac) = t := by
        rw [List.filter_cons, if_neg, filter_eq_self_of_not_mac t mac hnm]
        simp [hdmac]
      rw [h1, h2]
    · have hf' : t.find? (fun x => x.mac = mac) = some d := by
        rw [List.find?_cons_of_neg] at hf
        · exact hf
        · simpa using ha
      have hand : a ≠ d := by
        intro he
        rw [he] at ha
        exact ha hdmac
      have hnd' : (t.map Device.mac).Nodup := by
        simp [List.nodup_cons] at hnd
        exact hnd.2
      have h1 : removeFirstEq (a :: t) d = a :: removeFirstEq t d := by
        simp [removeFirstEq, hand]
      have h2 : (a :: t).filter (fun x => x.mac ≠ mac) =
          a :: t.filter (fun x => x.mac ≠ mac) := by
        rw [List.filter_cons, if_pos]
        simp [ha]
      rw [h1, h2, ih hnd' hf']

lemma specModePoints_le (s : RouterState) : specModePoints s ≤ 30 := by
  unfold specModePoints; split_ifs <;> omega

lemma specPwdPoints_le (s : RouterState) : specPwdPoints s ≤ 25 := by
  unfold specPwdPoints; split_ifs <;> omega

lemma specSsidPoints_le (s : RouterState) : specSsidPoints s ≤ 15 := by
  unfold specSsidPoints; split_ifs <;> omega

lemma specGuestPoints_le (s : RouterState) : specGuestPoints s ≤ 30 := by
  unfold specGuestPoints; split_ifs <;> omega

lemma jitter_bound (b off amp : ℚ) (m n : ℤ)
    (hb : b * 100 = (m : ℚ)) (hamp : amp * 100 = (n : ℚ))
    (h1 : -amp ≤ off) (h2 : off ≤ amp) :
    b - amp ≤ round2 (b + off) ∧ round2 (b + off) ≤ b + amp := by
  apply round2_bounds (b + off) (b - amp) (b + amp) (m - n) (m + n)
  · push_cast
    linarith
  · push_cast
    linarith
  · linarith
  · linarith

lemma run_speed_test_eq (args : ToolArgs) (clk : Clock) (rnd : RandOracle)
    (s : RouterState) :
    call_tool_data "run_speed_test" args clk rnd s =
      .ok ({ status := "success",
             download_mbps := some (round2 (s.network_stats.download_speed_mbps + rnd.dl)),
             upload_mbps := some (round2 (s.network_stats.upload_speed_mbps + rnd.ul)),
             latency_ms := some (s.network_stats.latency_ms + rnd.lat),
             jitter_ms := some rnd.jit,
             tested_at := some clk.iso },
           { s with logs := logLine clk ("Speed test completed: "
               ++ toString (round2 (s.network_stats.download_speed_mbps + rnd.dl))
               ++ " Mbps down, "
               ++ toString (round2 (s.network_stats.upload_speed_mbps + rnd.ul))
               ++ " Mbps up") :: s.logs }) := by
  simp [call_tool_data]

/-- C1 (counterexample): `call_tool_data` on the known tool `get_router_status` returns a record whose `status` is `online`, which is not one of `success`, `error`, `cancelled` — refuting the claim as stated. -/
theorem get_router_status_returns_online :
    (call_tool_data "get_router_status" {} clk0 rnd0
        (initState "2025-01-01 00:00:00")).toOption.map (fun p => p.1.status) =
      some "online" ∧
    "online" ∉ (["success", "error", "cancelled"] : List String) := by
  constructor
  · rfl
  · decide

/-- C1 (amended): for every known tool name and every argument dictionary, `call_tool_data` returns a result record whose `status` field is one of `success`, `error`, `cancelled`, or `online` (the `get_router_status` branch returns `online`). -/
theorem call_tool_status_values (name : String) (args : ToolArgs) (clk : Clock)
    (rnd : RandOracle) (s : RouterState) (hname : name ∈ knownToolNames) :
    ∃ st, (call_tool_data name args clk rnd s).toOption.map (fun p => p.1.status) =
        some st ∧
      st ∈ (["success", "error", "cancelled", "online"] : List String) := by
  simp only [knownToolNames, List.mem_cons, List.not_mem_nil, or_false] at hname
  rcases hname with h | h | h | h | h | h | h | h | h | h | h <;> subst h
  · simp [call_tool_data, Except.toOption]
  · simp [call_tool_data, Except.toOption]
  · by_cases hc : args.confirm = some true <;> simp [call_tool_data, Except.toOption, hc]
  · by_cases hp : (args.new_password.getD "").length < 8 <;> simp [call_tool_data, Except.toOption, hp]
  · by_cases hs : args.new_ssid.getD "" = "" <;> simp [call_tool_data, Except.toOption, hs]
  · by_cases he : args.enabled.getD false <;> simp [call_tool_data, Except.toOption, he]
  · cases hf : s.connected_devices.find? (fun d => d.mac = args.mac_address.getD "") with
    | some d => simp [call_tool_data, Except.toOption, hf]
    | none => simp [call_tool_data, Except.toOption, hf]
  · cases hc : args.channel with
    | some c =>
      by_cases hz : c = 0
      · simp [call_tool_data, Except.toOption, hc, hz]
      · simp [call_tool_data, Except.toOption, hc, hz]
    | none => simp [call_tool_data, Except.toOption, hc]
  · cases hb : args.band with
    | some b =>
      by_cases hv : b = "2.4GHz" ∨ b = "5GHz" ∨ b = "dual"
      · simp [call_tool_data, Except.toOption, hb, hv]
      · simp [call_tool_data, Except.toOption, hb, hv]
    | none => simp [call_tool_data, Except.toOption, hb]
  · simp [call_tool_data, Except.toOption]
  · simp [call_tool_data, Except.toOption]

theorem call_tool_status_values_witness :
    ∃ st, (call_tool_data "scan_networks" {} clk0 rnd0 (initState "T")).toOption.map
        (fun p => p.1.status) = some st ∧
      st ∈ (["success", "error", "cancelled", "online"] : List String) :=
  call_tool_status_values "scan_networks" {} clk0 rnd0 (initState "T") (by decide)

/-- C2: reading `router://config` returns a record whose `password` field is the fixed mask `********`; the output is identical for any two states differing only in the stored password, and when the guest network is disabled the `guest_ssid` and `guest_password` outputs are null. -/
theorem config_masks_password (s : RouterState) (p : String) :
    (∃ c : ConfigView, read_resource_data "router://config" s = .ok (.config c) ∧
      c.password = "********" ∧
      (s.guest_network_enabled = false → c.guest_ssid = none ∧ c.guest_password = none)) ∧
    read_resource_data "router://config" { s with password := p } =
      read_resource_data "router://config" s := by
  refine ⟨⟨_, rfl, rfl, ?_⟩, rfl⟩
  intro h
  simp [h]

theorem config_masks_password_witness :
    read_resource_data "router://config" { initState "T" with password := "hunter2" } =
      read_resource_data "router://config" (initState "T") :=
  (config_masks_password (initState "T") "hunter2").2

/-- C3: `change_wifi_password` with a new password shorter than 8 characters returns `error` and leaves the state (password and logs included) unchanged; with 8 or more characters it returns `success`, sets `password`, prepends exactly one log entry, and that new `logs[0]` mentions the password change. -/
theorem change_wifi_password_spec (s : RouterState) (args : ToolArgs)
    (clk : Clock) (rnd : RandOracle) :
    ((args.new_password.getD "").length < 8 →
      call_tool_data "change_wifi_password" args clk rnd s =
        .ok ({ status := "error",
               message := some "Password must be at least 8 characters long" }, s)) ∧
    (8 ≤ (args.new_password.getD "").length →
      call_tool_data "change_wifi_password" args clk rnd s =
        .ok ({ status := "success",
               message := some "WiFi password updated successfully. All devices will need to reconnect.",
               new_password_length := some (args.new_password.getD "").length },
             { s with password := args.new_password.getD ""
                      logs := logLine clk "WiFi password changed" :: s.logs }) ∧
      strIn "WiFi password changed" (logLine clk "WiFi password changed") = true) := by
  constructor
  · intro h
    simp [call_tool_data, h]
  · intro h
    refine ⟨?_, strIn_logLine clk _⟩
    simp [call_tool_data, show ¬ (args.new_password.getD "").length < 8 by omega]

theorem change_wifi_password_witness :
    call_tool_data "change_wifi_password" { new_password := some "longenough1" } clk0 rnd0
        (initState "T") =
      .ok ({ status := "success",
             message := some "WiFi password updated successfully. All devices will need to reconnect.",
             new_password_length := some "longenough1".length },
           { initState "T" with
             password := "longenough1"
             logs := logLine clk0 "WiFi password changed" :: (initState "T").logs }) ∧
    strIn "WiFi password changed" (logLine clk0 "WiFi password changed") = true :=
  (change_wifi_password_spec (initState "T") { new_password := some "longenough1" }
    clk0 rnd0).2 (by decide)

/-- C4: for a mac present in `connected_devices` (whose macs are pairwise distinct, the maintained invariant), `disconnect_device` returns `success`, removes exactly the entry with that mac, and shrinks the device list by one; a second call with the same mac returns `error` and leaves the state unchanged. -/
theorem disconnect_device_spec (s : RouterState) (mac : String) (args : ToolArgs)
    (clk clk₂ : Clock) (rnd rnd₂ : RandOracle)
    (hargs : args.mac_address = some mac)
    (hnd : (s.connected_devices.map Device.mac).Nodup)
    (hmem : mac ∈ s.connected_devices.map Device.mac) :
    ∃ res s₁,
      call_tool_data "disconnect_device" args clk rnd s = .ok (res, s₁) ∧
      res.status = "success" ∧
      s₁.connected_devices = s.connected_devices.filter (fun d => d.mac ≠ mac) ∧
      s₁.connected_devices.length + 1 = s.connected_devices.length ∧
      call_tool_data "disconnect_device" args clk₂ rnd₂ s₁ =
        .ok ({ status := "error",
               message := some ("Device with MAC address " ++ mac ++ " not found") }, s₁) := by
  obtain ⟨d, hd, hdm⟩ := List.mem_map.mp hmem
  have hsome : (s.connected_devices.find? (fun x => x.mac = mac)).isSome := by
    rw [List.find?_isSome]
    exact ⟨d, hd, by simp [hdm]⟩
  obtain ⟨d0, hfind⟩ := Option.isSome_iff_exists.mp hsome
  have hd0mac : d0.mac = mac := by simpa using List.find?_some hfind
  have hd0mem : d0 ∈ s.connected_devices := List.mem_of_find?_eq_some hfind
  have hrm := removeFirstEq_of_find? s.connected_devices mac hnd d0 hfind
  have hlen := removeFirstEq_length s.connected_devices d0 hd0mem
  have hnone : (s.connected_devices.filter (fun x => x.mac ≠ mac)).find?
      (fun x => x.mac = mac) = none := by
    rw [List.find?_eq_none]
    intro x hx
    have := (List.mem_filter.mp hx).2
    simpa using this
  refine ⟨{ status := "success",
            message := some ("Device " ++ sqt ++ d0.name ++ sqt
              ++ " disconnected successfully"),
            device := some d0 },
          { s with connected_devices := removeFirstEq s.connected_devices d0,
                   logs := logLine clk ("Device disconnected: " ++ d0.name
                     ++ " (" ++ mac ++ ")") :: s.logs },
          ?_, rfl, ?_, ?_, ?_⟩
  · simp [call_tool_data, hargs, hfind]
  · simpa using hrm
  · rw [hrm] at hlen
    simpa [hrm] using hlen
  · have hfind2 : (removeFirstEq s.connected_devices d0).find?
        (fun x => x.mac = mac) = none := by
      rw [hrm]; exact hnone
    simp [call_tool_data, hargs, hfind2]

theorem disconnect_device_witness :
    ∃ res s₁,
      call_tool_data "disconnect_device" { mac_address := some "AA:BB:CC:DD:EE:01" } clk0 rnd0
          (initState "T") = .ok (res, s₁) ∧
      res.status = "success" ∧
      s₁.connected_devices =
        (initState "T").connected_devices.filter (fun d => d.mac ≠ "AA:BB:CC:DD:EE:01") ∧
      s₁.connected_devices.length + 1 = (initState "T").connected_devices.length ∧
      call_tool_data "disconnect_device" { mac_address := some "AA:BB:CC:DD:EE:01" } clk0 rnd0
          s₁ =
        .ok ({ status := "error",
               message := some ("Device with MAC address " ++ "AA:BB:CC:DD:EE:01"
                 ++ " not found") }, s₁) :=
  disconnect_device_spec (initState "T") "AA:BB:CC:DD:EE:01"
    { mac_address := some "AA:BB:CC:DD:EE:01" } clk0 clk0 rnd0 rnd0 rfl (by decide) (by decide)

/-- C5: `reboot_router` with `confirm` false or absent returns `cancelled` and leaves the whole state unchanged; with `confirm=true` it sets `uptime_seconds` to 0 and prepends one log entry. -/
theorem reboot_router_spec (s : RouterState) (args : ToolArgs)
    (clk : Clock) (rnd : RandOracle) :
    ((args.confirm = none ∨ args.confirm = some false) →
      call_tool_data "reboot_router" args clk rnd s =
        .ok ({ status := "cancelled",
               message := some "Reboot cancelled. Set confirm=true to proceed." }, s)) ∧
    (args.confirm = some true →
      call_tool_data "reboot_router" args clk rnd s =
        .ok ({ status := "success",
               message := some "Router is rebooting. This will take approximately 2 minutes.",
               timestamp := some clk.iso },
             { s with uptime_seconds := 0,
                      logs := logLine clk "Router rebooted" :: s.logs })) := by
  constructor
  · rintro (h | h) <;> simp [call_tool_data, h]
  · intro h
    simp [call_tool_data, h]

theorem reboot_router_witness :
    call_tool_data "reboot_router" { confirm := some true } clk0 rnd0 (initState "T") =
      .ok ({ status := "success",
             message := some "Router is rebooting. This will take approximately 2 minutes.",
             timestamp := some clk0.iso },
           { initState "T" with
             uptime_seconds := 0
             logs := logLine clk0 "Router rebooted" :: (initState "T").logs }) :=
  (reboot_router_spec (initState "T") { confirm := some true } clk0 rnd0).2 rfl

/-- C6: for every state whose stored speed baselines are exact two-decimal numbers and every outcome of the random source within its contract, two successive `run_speed_test` calls each return download within ±5 of the baseline, upload within ±3, latency within ±2, and neither call changes any field of `network_stats`. -/
theorem run_speed_test_spec (s : RouterState) (args₁ args₂ : ToolArgs)
    (clk₁ clk₂ : Clock) (r₁ r₂ : RandOracle)
    (h₁ : r₁.Valid) (h₂ : r₂.Valid) (mdl mul : ℤ)
    (hdl : s.network_stats.download_speed_mbps * 100 = (mdl : ℚ))
    (hul : s.network_stats.upload_speed_mbps * 100 = (mul : ℚ)) :
    ∃ res₁ s₁ res₂ s₂,
      call_tool_data "run_speed_test" args₁ clk₁ r₁ s = .ok (res₁, s₁) ∧
      call_tool_data "run_speed_test" args₂ clk₂ r₂ s₁ = .ok (res₂, s₂) ∧
      s₁.network_stats = s.network_stats ∧
      s₂.network_stats = s.network_stats ∧
      InJitterRange res₁ s.network_stats ∧
      InJitterRange res₂ s.network_stats := by
  obtain ⟨ha1, ha2, ha3, ha4, ha5, ha6, -, -⟩ := h₁
  obtain ⟨hb1, hb2, hb3, hb4, hb5, hb6, -, -⟩ := h₂
  have h500 : (5 : ℚ) * 100 = ((500 : ℤ) : ℚ) := by norm_num
  have h300 : (3 : ℚ) * 100 = ((300 : ℤ) : ℚ) := by norm_num
  refine ⟨_, _, _, _, run_speed_test_eq args₁ clk₁ r₁ s, run_speed_test_eq args₂ clk₂ r₂ _,
    rfl, rfl, ⟨⟨_, rfl, ?_⟩, ⟨_, rfl, ?_⟩, ⟨_, rfl, ?_, ?_⟩⟩,
    ⟨⟨_, rfl, ?_⟩, ⟨_, rfl, ?_⟩, ⟨_, rfl, ?_, ?_⟩⟩⟩
  · exact jitter_bound _ r₁.dl 5 mdl 500 hdl h500 (by linarith) ha2
  · exact jitter_bound _ r₁.ul 3 mul 300 hul h300 (by linarith) ha4
  · omega
  · omega
  · exact jitter_bound _ r₂.dl 5 mdl 500 hdl h500 (by linarith) hb2
  · exact jitter_bound _ r₂.ul 3 mul 300 hul h300 (by linarith) hb4
  · dsimp only
    omega
  · dsimp only
    omega

theorem run_speed_test_witness :
    ∃ res₁ s₁ res₂ s₂,
      call_tool_data "run_speed_test" {} clk0 rnd0 (initState "T") = .ok (res₁, s₁) ∧
      call_tool_data "run_speed_test" {} clk0 rnd0 s₁ = .ok (res₂, s₂) ∧
      s₁.network_stats = (initState "T").network_stats ∧
      s₂.network_stats = (initState "T").network_stats ∧
      InJitterRange res₁ (initState "T").network_stats ∧
      InJitterRange res₂ (initState "T").network_stats :=
  run_speed_test_spec (initState "T") {} {} clk0 clk0 rnd0 rnd0 (by decide) (by decide)
    9550 4820 (by norm_num [initState]) (by norm_num [initState])

/-- C7: `change_channel` with the channel argument missing or equal to 0 returns `error` and leaves the state unchanged; with any nonzero channel it returns `success`, sets `channel`, and prepends one log entry. -/
theorem change_channel_spec (s : RouterState) (args : ToolArgs)
    (clk : Clock) (rnd : RandOracle) :
    ((args.channel = none ∨ args.channel = some 0) →
      call_tool_data "change_channel" args clk rnd s =
        .ok ({ status := "error", message := some "Channel number is required" }, s)) ∧
    (∀ c : Int, args.channel = some c → c ≠ 0 →
      call_tool_data "change_channel" args clk rnd s =
        .ok ({ status := "success",
               message := some ("Channel changed from " ++ toString s.channel
                 ++ " to " ++ toString c),
               new_channel := some c },
             { s with channel := c,
                      logs := logLine clk ("Channel changed from " ++ toString s.channel
                        ++ " to " ++ toString c) :: s.logs })) := by
  constructor
  · rintro (h | h) <;> simp [call_tool_data, h]
  · intro c hc hne
    simp [call_tool_data, hc, hne]

theorem change_channel_witness :
    call_tool_data "change_channel" { channel := some 11 } clk0 rnd0 (initState "T") =
      .ok ({ status := "success",
             message := some ("Channel changed from " ++ toString (initState "T").channel
               ++ " to " ++ toString (11 : Int)),
             new_channel := some 11 },
           { initState "T" with
             channel := 11
             logs := logLine clk0 ("Channel changed from " ++ toString (initState "T").channel
               ++ " to " ++ toString (11 : Int)) :: (initState "T").logs }) :=
  (change_channel_spec (initState "T") { channel := some 11 } clk0 rnd0).2 11 rfl (by decide)

/-- C8: an unknown resource URI and an unknown tool name both raise (an `Except.error`, modelling the Python `ValueError`), rather than returning a result record; no successor state is produced, so the state is unchanged. -/
theorem unknown_names_raise (uri name : String) (args : ToolArgs) (clk : Clock)
    (rnd : RandOracle) (s : RouterState)
    (hu : uri ∉ knownResourceUris) (hn : name ∉ knownToolNames) :
    read_resource_data uri s = .error ("Unknown resource URI: " ++ uri) ∧
    call_tool_data name args clk rnd s = .error ("Unknown tool: " ++ name) := by
  simp only [knownResourceUris, List.mem_cons, List.not_mem_nil, or_false, not_or] at hu
  simp only [knownToolNames, List.mem_cons, List.not_mem_nil, or_false, not_or] at hn
  obtain ⟨u1, u2, u3, u4, u5⟩ := hu
  obtain ⟨n1, n2, n3, n4, n5, n6, n7, n8, n9, n10, n11⟩ := hn
  constructor
  · simp [read_resource_data, u1, u2, u3, u4, u5]
  · simp [call_tool_data, n1, n2, n3, n4, n5, n6, n7, n8, n9, n10, n11]

theorem unknown_names_witness :
    read_resource_data "router://bogus" (initState "T") =
      .error ("Unknown resource URI: " ++ "router://bogus") ∧
    call_tool_data "nope" {} clk0 rnd0 (initState "T") =
      .error ("Unknown tool: " ++ "nope") :=
  unknown_names_raise "router://bogus" "nope" {} clk0 rnd0 (initState "T")
    (by decide) (by decide)

/-- C9: the security audit score is the sum of the four weighted checks (security mode 30/20/5, password length 25/20/10/0, SSID 15 exactly when its lowercase form contains neither default nor admin, guest network 15 plus 15 for a distinct password), lies between 0 and 100, and the recommendation list is the concatenation of the per-check recommendations in that same order; the audit is a pure reader, the score is not stored. -/
theorem security_audit_spec (s : RouterState) :
    securityAudit s =
      (specModePoints s + specPwdPoints s + specSsidPoints s + specGuestPoints s,
       specModeRecs s ++ specPwdRecs s ++ specSsidRecs s ++ specGuestRecs s ++ [firmwareRec]) ∧
    0 ≤ (securityAudit s).1 ∧ (securityAudit s).1 ≤ 100 := by
  have hmain : securityAudit s =
      (specModePoints s + specPwdPoints s + specSsidPoints s + specGuestPoints s,
       specModeRecs s ++ specPwdRecs s ++ specSsidRecs s ++ specGuestRecs s ++ [firmwareRec]) := by
    unfold securityAudit specModePoints specPwdPoints specSsidPoints specGuestPoints
      specModeRecs specPwdRecs specSsidRecs specGuestRecs firmwareRec
    split_ifs <;> simp
  refine ⟨hmain, Nat.zero_le _, ?_⟩
  rw [hmain]
  have h1 := specModePoints_le s
  have h2 := specPwdPoints_le s
  have h3 := specSsidPoints_le s
  have h4 := specGuestPoints_le s
  simp only []
  omega

/-- C10: `enable_guest_network` never returns an error: its status is always `success`; with `enabled` absent (or false) it sets `guest_network_enabled` to false, prepends a Guest network disabled log entry, and ignores any supplied `guest_ssid`/`guest_password` arguments, leaving those fields unchanged. -/
theorem enable_guest_network_spec (s : RouterState) (args : ToolArgs)
    (clk : Clock) (rnd : RandOracle) :
    (∃ res s', call_tool_data "enable_guest_network" args clk rnd s = .ok (res, s') ∧
      res.status = "success") ∧
    ((args.enabled = none ∨ args.enabled = some false) →
      call_tool_data "enable_guest_network" args clk rnd s =
        .ok ({ status := "success", message := some "Guest network disabled" },
             { s with guest_network_enabled := false,
                      logs := logLine clk "Guest network disabled" :: s.logs })) := by
  constructor
  · by_cases he : args.enabled.getD false
    · simp [call_tool_data, he]
    · simp [call_tool_data, he]
  · rintro (h | h) <;> simp [call_tool_data, h]

theorem enable_guest_network_witness :
    call_tool_data "enable_guest_network"
        { guest_ssid := some "Kids_WiFi", guest_password := some "kids_pass" } clk0 rnd0
        (initState "T") =
      .ok ({ status := "success", message := some "Guest network disabled" },
           { initState "T" with
             guest_network_enabled := false
             logs := logLine clk0 "Guest network disabled" :: (initState "T").logs }) :=
  (enable_guest_network_spec (initState "T")
    { guest_ssid := some "Kids_WiFi", guest_password := some "kids_pass" } clk0 rnd0).2
    (Or.inl rfl)
